import Mathlib

/-!
Verification of the model-lifecycle and task-orchestration layer of the
EasyVideo AI service, shallowly embedded from the Python sources:

* `src/ai-service/api_server.py` (endpoints, task_progress dict, cleanup, stream)
* `src/ai-service/modules/video_generator.py` (VideoGenerator)
* `src/ai-service/modules/image_generator.py` (ImageGenerator)
* `src/ai-service/modules/prompt_optimizer.py` (PromptOptimizer)
* `src/ai-service/main.py` (ensure_service_loaded)

External effects (model loading by torch, file existence, the GPU run, the
prompt-optimization LLM call) are opaque collaborators; each is represented by
a boolean outcome in an environment record, and every control-flow branch of
the Python code is mirrored on those outcomes.  Registry mutation is modelled
as an event trace: each `task_progress[tid] = {...}` assignment in the source
becomes one `Ev.write` event, in source order.
-/

namespace EasyVideo

/-- One value of the `task_progress` dict in `api_server.py`: the JSON object
`{"progress": p, "status": s, "error"?: e}` (the optional `video_path` result
key is irrelevant to every claim and omitted). -/
structure Record where
  progress : Nat
  status : String
  error : Option String := none
deriving Repr, DecidableEq

/-- `api_server.py` keeps `task_progress = {}`, a string-keyed dict. -/
def Registry := List (String × Record)

instance : DecidableEq Registry := by unfold Registry; infer_instance

/-- Dict assignment `task_progress[tid] = r` (replace or add). -/
def Registry.set (m : Registry) (tid : String) (r : Record) : Registry :=
  match m with
  | [] => [(tid, r)]
  | (k, v) :: rest => if k = tid then (k, r) :: rest else (k, v) :: Registry.set rest tid r

/-- Dict lookup `task_progress.get(tid)`. -/
def Registry.lookup (m : Registry) (tid : String) : Option Record :=
  match m with
  | [] => none
  | (k, v) :: rest => if k = tid then some v else Registry.lookup rest tid

/-- Membership test `tid in task_progress`. -/
def Registry.contains (m : Registry) (tid : String) : Bool :=
  match m with
  | [] => false
  | (k, _) :: rest => k = tid || Registry.contains rest tid

/-- Dict deletion `del task_progress[tid]`. -/
def Registry.erase (m : Registry) (tid : String) : Registry :=
  match m with
  | [] => []
  | (k, v) :: rest => if k = tid then rest else (k, v) :: Registry.erase rest tid

/-- `api_server.py` line 451:
`task_progress.get(task_id, {"progress": 0, "status": "unknown"})`.
The endpoint returns this directly, so poll is total and never raises. -/
def get_task_progress (m : Registry) (tid : String) : Record :=
  (m.lookup tid).getD ⟨0, "unknown", none⟩

/-- `api_server.py` line 463: a record is terminal when
`progress.get("status") in ["completed", "failed"]`. -/
def isTerminal (r : Record) : Bool :=
  r.status == "completed" || r.status == "failed"

/-- `api_server.py` lines 441-446, `cleanup_task_progress`: once the delay has
slept, delete the record if the id is still present (there is no check that the
record is still terminal). -/
def cleanup_task_progress (m : Registry) (tid : String) : Registry :=
  if m.contains tid then m.erase tid else m

/-- Observable actions of one orchestrated run, in source order:
* `write tid r`   — the assignment `task_progress[tid] = r` (directly or via
  the progress callback installed by `set_progress_callback`);
* `unload`        — an invocation of `generator.unload_model()`;
* `schedule tid d`— `asyncio.create_task(cleanup_task_progress(tid, delay=d))`;
* `modelLoad` / `modelRun` — the opaque heavy-model load and run calls;
* `ctorOptimizer` / `optimizeCall p` — `PromptOptimizer()` construction and the
  awaited `optimizer.optimize(p, ...)`;
* `synthesize i` / `saveImage i` — the pipe call and `image.save` for image `i`. -/
inductive Ev where
  | write (tid : String) (r : Record)
  | unload
  | schedule (tid : String) (delay : Nat)
  | modelLoad
  | modelRun
  | ctorOptimizer
  | optimizeCall (prompt : String)
  | synthesize (i : Nat)
  | saveImage (i : Nat)
deriving Repr, DecidableEq

/-- The registry writes contained in a trace. -/
def writesOf (evs : List Ev) : List Record :=
  evs.filterMap fun e => match e with | .write _ r => some r | _ => none

/-- How many times `unload_model()` was invoked in a trace. -/
def unloadCount (evs : List Ev) : Nat :=
  (evs.filter fun e => e matches .unload).length

/-- The cleanup delays scheduled in a trace. -/
def schedulesOf (evs : List Ev) : List (String × Nat) :=
  evs.filterMap fun e => match e with | .schedule t d => some (t, d) | _ => none

/-- Replay the registry writes of a trace onto a registry state
(`schedule` only queues a delayed deletion; it mutates nothing now). -/
def applyEvents (m : Registry) (evs : List Ev) : Registry :=
  match evs with
  | [] => m
  | .write tid r :: rest => applyEvents (m.set tid r) rest
  | _ :: rest => applyEvents m rest

/-! ### The video pipeline

`initialize_and_generate_video` (`api_server.py` lines 371-439) drives
`VideoGenerator.generate_from_image` (`video_generator.py` lines 158-262).
Outcomes of the opaque collaborators: -/

/-- Branch outcomes for one video run.
* `ctorOk` — `get_video_generator()` (lines 141-150): `VideoGenerator()`
  construction succeeds (its `_load_config` swallows its own errors, but the
  wrapper catches any exception and re-raises a 503);
* `modelPathOk` — `self.model_path and os.path.exists(self.model_path)`
  (`video_generator.py` line 91);
* `loaderOk` — `WanVideoPipeline.from_pretrained` succeeds (lines 118-123);
* `inputImageOk` — `os.path.exists(image_path)` (line 178);
* `optimizerOk` — the nested `PromptOptimizer().optimize` call succeeds
  (lines 203-208; a failure there is swallowed by the local `except`);
* `runOk` — the model call plus `save_video` succeed (lines 221-237). -/
structure VideoEnv where
  ctorOk : Bool
  modelPathOk : Bool
  loaderOk : Bool
  inputImageOk : Bool
  optimizerOk : Bool
  runOk : Bool
deriving Repr, DecidableEq

/-- The whole pipeline succeeds exactly when every stage after construction
succeeds (`optimizerOk` is irrelevant: that failure is swallowed). -/
def VideoEnv.success (env : VideoEnv) : Bool :=
  env.ctorOk && env.modelPathOk && env.loaderOk && env.inputImageOk && env.runOk

/-- `VideoGenerator.generate_from_image` (`video_generator.py` lines 158-262),
entered with the progress callback for `tid` registered and the model not yet
loaded (a fresh or previously-unloaded singleton).  Returns the event trace and
whether the call returned normally (`false` = it raised).

Control flow mirrored line by line:
* lines 170-172: not loaded, so callback `(5, "正在加载模型...")`, then
  `_initialize_model` — which on a missing path only logs and returns
  (lines 91-94), and on a loader failure raises (line 137);
* lines 174-175: if still not loaded, raise;
* line 178: missing input image raises;
* lines 193-210: callbacks 10, 20, optimizer attempt (failure swallowed), 30;
* lines 221-245: run, callback 80, save, `unload_model()`, callback 100;
* lines 254-262 (`except`): callback `(0, "生成失败: ...")`, `unload_model()`,
  re-raise. -/
def generate_from_image (env : VideoEnv) (tid : String) : List Ev × Bool :=
  let fail (pre : List Ev) (msg : String) : List Ev × Bool :=
    (pre ++ [.write tid ⟨0, "生成失败: " ++ msg, none⟩, .unload], false)
  let pre0 : List Ev := [.write tid ⟨5, "正在加载模型...", none⟩]
  if !env.modelPathOk then
    -- _initialize_model returned silently without loading; line 175 raises
    fail pre0 "视频生成模型未能成功加载，无法生成视频"
  else if !env.loaderOk then
    -- _initialize_model raised RuntimeError (line 137)
    fail pre0 "Video generation model failed to load"
  else
    let pre1 := pre0 ++ [Ev.modelLoad]
    if !env.inputImageOk then
      fail pre1 "Input image not found"
    else
      let pre2 := pre1 ++
        [Ev.write tid ⟨10, "正在加载输入图像...", none⟩,
         Ev.write tid ⟨20, "正在优化提示词...", none⟩,
         Ev.ctorOptimizer, Ev.optimizeCall "video prompt",
         Ev.write tid ⟨30, "正在生成视频...", none⟩, Ev.modelRun]
      if !env.runOk then
        fail pre2 "Video generation error"
      else
        (pre2 ++
          [Ev.write tid ⟨80, "正在保存视频...", none⟩, Ev.unload,
           Ev.write tid ⟨100, "视频生成完成", none⟩], true)

/-- `initialize_and_generate_video` (`api_server.py` lines 371-439):
* line 376: `task_progress[tid] = {"progress": 5, "status": "initializing"}`;
* lines 379-381: `get_video_generator()` in an executor; if it raises, the
  `except` (lines 423-428) writes `{0, "failed"}` and schedules cleanup after
  60s, and the `finally` (lines 429-439) skips the unload since `generator`
  is still `None`;
* line 387: `set_progress_callback`;
* line 390: `task_progress[tid] = {"progress": 10, "status": "processing"}`;
* lines 393-409: `generate_from_image` in an executor;
* lines 412-421: on success write `{100, "completed"}` and schedule 300s;
* lines 423-428: on failure write `{0, "failed"}` and schedule 60s;
* lines 429-439: `finally` invokes `generator.unload_model()` whenever the
  generator instance exists. -/
def initialize_and_generate_video (env : VideoEnv) (tid : String) : List Ev :=
  [Ev.write tid ⟨5, "initializing", none⟩] ++
  if !env.ctorOk then
    [Ev.write tid ⟨0, "failed", some "video generator init failed"⟩,
     Ev.schedule tid 60]
  else
    let (evs, ok) := generate_from_image env tid
    [Ev.write tid ⟨10, "processing", none⟩] ++ evs ++
    (if ok then
      [Ev.write tid ⟨100, "completed", none⟩, Ev.schedule tid 300]
     else
      [Ev.write tid ⟨0, "failed", some "video generation error"⟩,
       Ev.schedule tid 60]) ++
    [Ev.unload]

/-- The `/video/generate` endpoint (`api_server.py` lines 350-369): write
`{0, "starting"}` (line 354), then dispatch `initialize_and_generate_video`
(line 360); the endpoint itself returns immediately. -/
def videoEndpointEvents (env : VideoEnv) (tid : String) : List Ev :=
  Ev.write tid ⟨0, "starting", none⟩ :: initialize_and_generate_video env tid

/-! ### The image pipeline

`ImageGenerator.generate` (`image_generator.py` lines 132-209) and the
synchronous `/image/generate` endpoint (`api_server.py` lines 299-348). -/

/-- Branch outcomes for one image run.
* `ctorOk` — `get_image_generator()` (`api_server.py` lines 130-139) succeeds;
* `initOk` — `_initialize_model` succeeds (`image_generator.py` lines 67-103:
  FLUX available, path present and existing, `from_pretrained` succeeds; any
  failure raises);
* `optimizeOk` — `PromptOptimizer().optimize(prompt, task_type="image")`
  returns (lines 171-173; a failure here propagates: the comment at line 169
  says there is no longer any fallback);
* `runOk` — the pipe calls and `image.save` in `_generate_with_model`
  succeed (a failure is modelled as raised at the first image). -/
structure ImgEnv where
  ctorOk : Bool
  initOk : Bool
  optimizeOk : Bool
  runOk : Bool
deriving Repr, DecidableEq

/-- Progress-callback invocation: `ImageGenerator.generate` takes the callback
as an argument; the `/image/generate` endpoint passes one that writes
`task_progress[tid] = {"progress": p, "status": s}` (`api_server.py`
lines 308-309), while `main.py` passes none.  `hasCb` selects these. -/
def imgCb (hasCb : Bool) (tid : String) (p : Nat) (s : String) : List Ev :=
  if hasCb then [Ev.write tid ⟨p, s, none⟩] else []

/-- The per-image loop of `_generate_with_model` (`image_generator.py`
lines 226-257): for image `i` of `n`, callback `30 + (i / n) * 60` (integer
floor of the float product, which for `0 ≤ i < n` equals `30 + i * 60 / n`
up to float rounding; the code computes `int((i / num_images) * 60)`),
then the pipe call and `image.save`. -/
def imageLoop (hasCb : Bool) (tid : String) (n : Nat) : Nat → List Ev
  | 0 => []
  | k + 1 =>
    let i := n - (k + 1)
    imgCb hasCb tid (30 + i * 60 / n) ("generating_image_" ++ toString (i + 1)) ++
    [Ev.synthesize i, Ev.saveImage i] ++ imageLoop hasCb tid n k

/-- `ImageGenerator.generate` (`image_generator.py` lines 132-209), on a
generator whose model is not loaded (`is_model_loaded` starts false and every
exit of a previous call unloaded).  Returns the event trace and whether the
call returned normally.

Control flow mirrored:
* lines 140-141: callback `(5, "initializing")`;
* lines 144-151: `_initialize_model()`; raises on any failure, and the
  `except` at lines 205-209 then calls `unload_model()` and re-raises;
* lines 162-163: callback `(10, "preparing")`;
* lines 171-173: `PromptOptimizer()` then `await optimizer.optimize(...)`,
  before any pipe call; a failure propagates to the same `except`;
* lines 177-178: callback `(20, "optimizing_prompt")`;
* lines 191-192: callback `(30, "generating")`;
* lines 195-198 / 226-262: the per-image loop, then callback
  `(95, "finalizing")`;
* line 201: `unload_model()` on success. -/
def ImageGenerator.generate (env : ImgEnv) (hasCb : Bool) (tid prompt : String)
    (n : Nat) : List Ev × Bool :=
  let cb := imgCb hasCb tid
  let pre0 := cb 5 "initializing"
  if !env.initOk then
    (pre0 ++ [Ev.unload], false)
  else
    let pre1 := pre0 ++ [Ev.modelLoad] ++ cb 10 "preparing" ++
      [Ev.ctorOptimizer, Ev.optimizeCall prompt]
    if !env.optimizeOk then
      (pre1 ++ [Ev.unload], false)
    else
      let pre2 := pre1 ++ cb 20 "optimizing_prompt" ++ cb 30 "generating"
      if !env.runOk then
        (pre2 ++ [Ev.synthesize 0, Ev.unload], false)
      else
        (pre2 ++ imageLoop hasCb tid n n ++ cb 95 "finalizing" ++ [Ev.unload], true)

/-- The `/image/generate` endpoint (`api_server.py` lines 299-348):
* line 304: `task_progress[tid] = {0, "starting"}`;
* line 306: `get_image_generator()`; if it raises, the `except`
  (lines 333-340) writes `{0, "failed"}`, schedules 60s cleanup and
  re-raises, and the `finally` (lines 341-348) skips the unload;
* lines 311-321: `await generator.generate(...)` with the callback;
* lines 324-327: on success `{100, "completed"}` and schedule 60s (the
  success delay here is 60, unlike the 300 of the video path);
* lines 333-338: on failure `{0, "failed"}` and schedule 60s;
* lines 341-348: `finally` invokes `generator.unload_model()` whenever the
  generator instance exists. -/
def imageEndpointEvents (env : ImgEnv) (tid prompt : String) (n : Nat) : List Ev :=
  [Ev.write tid ⟨0, "starting", none⟩] ++
  if !env.ctorOk then
    [Ev.write tid ⟨0, "failed", some "image generator init failed"⟩,
     Ev.schedule tid 60]
  else
    let (evs, ok) := ImageGenerator.generate env true tid prompt n
    evs ++
    (if ok then
      [Ev.write tid ⟨100, "completed", none⟩, Ev.schedule tid 60]
     else
      [Ev.write tid ⟨0, "failed", some "image generation error"⟩,
       Ev.schedule tid 60]) ++
    [Ev.unload]

/-! ### The progress stream

`stream_task_progress` (`api_server.py` lines 454-472): a generator that
loops forever sampling `task_progress.get(task_id, {0, "unknown"})`, yields
the sample, breaks if the sample is terminal, else sleeps 0.5s.  We model the
samples as a function `f : Nat → Record` (tick `n` sees `f n`) and index the
loop by the number of iterations performed. -/

/-- The records emitted by the first `k` iterations of the stream loop. -/
def streamEmit (f : Nat → Record) : Nat → List Record
  | 0 => []
  | k + 1 => f 0 :: if isTerminal (f 0) then [] else streamEmit (fun n => f (n + 1)) k

/-- Whether the stream loop has exited (hit the `break`) within `k` iterations. -/
def streamDone (f : Nat → Record) : Nat → Bool
  | 0 => false
  | k + 1 => isTerminal (f 0) || streamDone (fun n => f (n + 1)) k

/-! ### Concurrent access to the video generator singleton

`api_server.py` guards the `video_generator` global only by an `is None`
check (lines 141-150); `initialize_and_generate_video` tasks are dispatched
with `asyncio.create_task` (line 360) and run the blocking model calls in an
executor.  Nothing anywhere blocks one task while another holds the model.
We model two concurrently submitted video tasks as a small-step transition
system: each task moves from `start` (submitted), through `running` (inside
`get_video_generator` / `generate_from_image`, i.e. loading or running the
role model), to `done`. -/

/-- Program counter of one video task. -/
inductive PC where
  | start
  | running
  | done
deriving Repr, DecidableEq

/-- Shared state of two concurrent video tasks: the two program counters and
whether the `video_generator` module-level singleton has been created. -/
structure CState where
  pc1 : PC
  pc2 : PC
  gen : Bool
deriving Repr, DecidableEq

/-- One interleaved step.  `enter` executes `get_video_generator()` (creating
the singleton if absent — there is no lock, so the step is enabled regardless
of the other task) and begins `generate_from_image`; `leave` finishes the run.
No constructor consults the other task, mirroring the absence of any lease,
lock, or busy flag in the source. -/
inductive CStep : CState → CState → Prop where
  | enter1 (p2 : PC) (g : Bool) : CStep ⟨PC.start, p2, g⟩ ⟨PC.running, p2, true⟩
  | leave1 (p2 : PC) (g : Bool) : CStep ⟨PC.running, p2, g⟩ ⟨PC.done, p2, g⟩
  | enter2 (p1 : PC) (g : Bool) : CStep ⟨p1, PC.start, g⟩ ⟨p1, PC.running, true⟩
  | leave2 (p1 : PC) (g : Bool) : CStep ⟨p1, PC.running, g⟩ ⟨p1, PC.done, g⟩

/-- Both tasks submitted, singleton not yet created. -/
def initCState : CState := ⟨PC.start, PC.start, false⟩

/-- Reachability of the two-task system from the initial state. -/
def CReachable (s : CState) : Prop := Relation.ReflTransGen CStep initCState s

/-- Both tasks are simultaneously inside the load/run region of the same role. -/
def bothRunning (s : CState) : Prop := s.pc1 = PC.running ∧ s.pc2 = PC.running

/-! ### Model initialization (ensure_loaded)

`PromptOptimizer._initialize_model` (`prompt_optimizer.py` lines 50-87),
`ImageGenerator._initialize_model` (`image_generator.py` lines 67-103) and
`ensure_service_loaded` (`main.py` lines 56-94).  `os.path.exists` is the
oracle `fs : String → Bool`; the external `from_pretrained` loaders are the
oracle `loaderOk : Bool`.  The module-level availability flags
(`TRANSFORMERS_AVAILABLE`, set to `True` unconditionally at
`prompt_optimizer.py` line 16, and `FLUX_AVAILABLE` / `DIFFSYNTH_AVAILABLE`
from the import guards of `image_generator.py` lines 19-33) are booleans. -/

/-- One `models.<name>` entry of `config/config.json` as read by
`_load_config`: the `enabled` flag and the `path` value (absent key => none). -/
structure ModelCfg where
  enabled : Bool
  path : Option String
deriving Repr, DecidableEq

/-- `_load_config` of both modules (`prompt_optimizer.py` lines 32-48,
`image_generator.py` lines 49-65): `self.model_path` is set from the config
path only when the entry has `enabled: true`; otherwise it stays `None`. -/
def loadConfigPath (cfg : ModelCfg) : Option String :=
  if cfg.enabled then cfg.path else none

/-- Python truthiness-plus-existence test
`self.model_path and os.path.exists(self.model_path)`:
false for `None`, for the empty string, and for a non-existing path. -/
def pathUsable (fs : String → Bool) : Option String → Bool
  | none => false
  | some p => !(p == "") && fs p

/-- The state of a `PromptOptimizer` instance relevant to loading:
`model_path`, the `is_model_loaded` flag, and whether the `model` /
`processor` fields are populated. -/
structure POState where
  model_path : Option String
  is_model_loaded : Bool
  hasModel : Bool
deriving Repr, DecidableEq

/-- `PromptOptimizer()` (`prompt_optimizer.py` lines 21-30): fields start
empty/false; `_load_config` fills `model_path`; no model is loaded. -/
def PromptOptimizer.new (cfg : ModelCfg) : POState :=
  ⟨loadConfigPath cfg, false, false⟩

/-- `PromptOptimizer._initialize_model` (`prompt_optimizer.py` lines 50-87):
* line 52: already loaded => plain return (no state change);
* line 55: `TRANSFORMERS_AVAILABLE` false => raise (it is in fact the
  constant `True` at line 16);
* line 58: path `None`/empty/missing => raise RuntimeError;
* lines 61-81: run the loaders; on success set both flags;
* lines 82-86: a loader exception is caught and **swallowed**: the fields are
  reset to `None` and the function returns normally, not loaded. -/
def PromptOptimizer.initializeModel (transformersAvailable : Bool)
    (fs : String → Bool) (loaderOk : Bool) (s : POState) : Except String POState :=
  if s.is_model_loaded then .ok s
  else if !transformersAvailable then
    .error "Transformers not available. Please install required dependencies."
  else if !pathUsable fs s.model_path then
    .error "Qwen model path not found. Please check configuration."
  else if loaderOk then .ok { s with is_model_loaded := true, hasModel := true }
  else .ok { s with hasModel := false }

/-- The state of an `ImageGenerator` instance relevant to loading.
Its constructor (lines 38-47) sets `model_type = "flux_krea"`. -/
structure IGState where
  model_path : Option String
  is_model_loaded : Bool
  model_type : String
deriving Repr, DecidableEq

/-- `ImageGenerator()` (`image_generator.py` lines 38-47). -/
def ImageGenerator.new (cfg : ModelCfg) : IGState :=
  ⟨loadConfigPath cfg, false, "flux_krea"⟩

/-- `ImageGenerator._initialize_model` (`image_generator.py` lines 67-130):
* line 69: already loaded => plain return;
* dispatch on `model_type`: `"flux_krea"` => `_initialize_flux_krea`
  (lines 79-103), `"flux_kontext"` => `_initialize_flux_kontext`
  (lines 105-130), anything else => only a warning, no load and no error;
* both loaders raise when the backing library is unavailable, when the path is
  `None`/empty/missing, and (unlike the prompt optimizer) when the external
  loader itself fails (lines 101-103, 128-130). -/
def ImageGenerator.initializeModel (fluxAvailable diffsynthAvailable : Bool)
    (fs : String → Bool) (loaderOk : Bool) (s : IGState) : Except String IGState :=
  if s.is_model_loaded then .ok s
  else if s.model_type == "flux_krea" then
    if !fluxAvailable then
      .error "ModelScope FluxPipeline not available. Please install required dependencies."
    else if !pathUsable fs s.model_path then
      .error "FLUX model path not found"
    else if loaderOk then .ok { s with is_model_loaded := true }
    else .error "FLUX.1-Krea-dev model loading failed"
  else if s.model_type == "flux_kontext" then
    if !diffsynthAvailable then
      .error "DiffSynth-Studio not available. Please install required dependencies."
    else if !pathUsable fs s.model_path then
      .error "FLUX model path not found. Please check configuration."
    else if loaderOk then .ok { s with is_model_loaded := true }
    else .error "FLUX.1-Kontext-dev model loading failed"
  else .ok s

/-- `ensure_service_loaded` (`main.py` lines 56-94) over the `services` dict
(keys mapped to `Option Unit`: the service instance is opaque here) and the
`config_manager.is_model_enabled` oracle.  Already-present service => returned
unchanged.  Otherwise the role is dispatched by name; a disabled model raises
(the 503 HTTPException is itself caught by the blanket `except` at lines 92-94
and re-raised as a 500, still an error), an unknown name raises, and otherwise
the constructor runs (the four constructors only read config and swallow
their own errors, so construction itself does not raise). -/
def ensure_service_loaded (enabled : String → Bool)
    (services : String → Option Unit) (name : String) :
    Except String (String → Option Unit) :=
  match services name with
  | some _ => .ok services
  | none =>
    let add : Except String (String → Option Unit) :=
      .ok (fun k => if k = name then some () else services k)
    if name = "prompt_optimizer" then
      if !enabled "qwen" then .error "服务加载失败: Qwen模型未启用" else add
    else if name = "image_generator" then
      if !enabled "flux" then .error "服务加载失败: FLUX模型未启用" else add
    else if name = "image_editor" then
      if !enabled "flux" then .error "服务加载失败: FLUX模型未启用" else add
    else if name = "video_generator" then
      if !enabled "wan_i2v" then .error "服务加载失败: Wan I2V模型未启用" else add
    else .error "服务加载失败: 未知服务"

/-! ### Parameter validation -/

/-- `ImageGenerator.validate_parameters` (`image_generator.py` lines 335-350).
The source computes `ratio = max(width, height) / min(width, height)` with
Python float division and tests `ratio > 4`; for integer arguments that have
already passed the 256..2048 bounds the quotient lies in [1/8, 8] and is more
than 1/2048 away from 4 whenever it differs from 4, far beyond double
rounding error, so the exact rational comparison used here decides
identically. -/
def validate_parameters (width height num_images : Int) : Bool :=
  if width < 256 || height < 256 || width > 2048 || height > 2048 then false
  else if num_images < 1 || num_images > 10 then false
  else if ((max width height : ℚ) / (min width height : ℚ)) > 4 then false
  else true

/-! ### Small helpers over event traces -/

/-- Event is the awaited `optimizer.optimize` call. -/
def isOptCall : Ev → Bool
  | .optimizeCall _ => true
  | _ => false

/-- Event is a pipe (synthesis) call for some image. -/
def isSynth : Ev → Bool
  | .synthesize _ => true
  | _ => false

/-- Event is an `image.save` for some image. -/
def isSave : Ev → Bool
  | .saveImage _ => true
  | _ => false

/-- Event is an `unload_model()` invocation. -/
def isUnload : Ev → Bool
  | .unload => true
  | _ => false

/-- The claimed monotonicity property of a sequence of records: at each
consecutive pair whose first record is still non-terminal, progress does not
decrease. -/
def monotoneWhileNonterminal : List Record → Bool
  | [] => true
  | [_] => true
  | r1 :: r2 :: rest =>
    (isTerminal r1 || decide (r1.progress ≤ r2.progress)) &&
      monotoneWhileNonterminal (r2 :: rest)

/-- A sample history for the stream: one non-terminal poll, then the task is
completed forever (used to instantiate the stream theorem). -/
def streamSampleHistory : Nat → Record := fun n =>
  if n = 0 then ⟨10, "processing", none⟩ else ⟨100, "completed", none⟩

/-! ## Helper lemmas -/

theorem schedulesOf_append (a b : List Ev) :
    schedulesOf (a ++ b) = schedulesOf a ++ schedulesOf b := by
  simp [schedulesOf, List.filterMap_append]

theorem schedulesOf_nil : schedulesOf [] = [] := rfl

theorem schedulesOf_write (tid : String) (r : Record) (l : List Ev) :
    schedulesOf (Ev.write tid r :: l) = schedulesOf l := rfl

theorem schedulesOf_unload (l : List Ev) :
    schedulesOf (Ev.unload :: l) = schedulesOf l := rfl

theorem schedulesOf_modelLoad (l : List Ev) :
    schedulesOf (Ev.modelLoad :: l) = schedulesOf l := rfl

theorem schedulesOf_ctorOptimizer (l : List Ev) :
    schedulesOf (Ev.ctorOptimizer :: l) = schedulesOf l := rfl

theorem schedulesOf_optimizeCall (p : String) (l : List Ev) :
    schedulesOf (Ev.optimizeCall p :: l) = schedulesOf l := rfl

theorem schedulesOf_schedule (tid : String) (d : Nat) (l : List Ev) :
    schedulesOf (Ev.schedule tid d :: l) = (tid, d) :: schedulesOf l := rfl

theorem schedulesOf_modelRun (l : List Ev) :
    schedulesOf (Ev.modelRun :: l) = schedulesOf l := rfl

theorem schedulesOf_synthesize (i : Nat) (l : List Ev) :
    schedulesOf (Ev.synthesize i :: l) = schedulesOf l := rfl

theorem schedulesOf_saveImage (i : Nat) (l : List Ev) :
    schedulesOf (Ev.saveImage i :: l) = schedulesOf l := rfl

theorem schedulesOf_imgCb (hasCb : Bool) (tid : String) (p : Nat) (s : String) :
    schedulesOf (imgCb hasCb tid p s) = [] := by
  cases hasCb <;> rfl

theorem schedulesOf_imageLoop (hasCb : Bool) (tid : String) (n : Nat) :
    ∀ k, schedulesOf (imageLoop hasCb tid n k) = [] := by
  intro k
  induction k with
  | zero => rfl
  | succ k ih =>
    simp only [imageLoop, schedulesOf_append, schedulesOf_imgCb, List.nil_append]
    simpa [schedulesOf, List.filterMap_cons] using ih

theorem streamDone_of_never_terminal (r : Record) (hr : isTerminal r = false) :
    ∀ k, streamDone (fun _ => r) k = false := by
  intro k
  induction k with
  | zero => rfl
  | succ k ih => simpa [streamDone, hr] using ih

/-! ## Claims -/

/-- C1 (counterexample): the claimed per-role mutual exclusion fails.  In the
source there is no lease at all: `get_video_generator` guards the singleton
only with an `is None` check and nothing blocks a second task, so the state in
which both concurrently submitted tasks are simultaneously loading/running the
video model is reachable in two steps from the initial state. -/
theorem C1_counterexample :
    CReachable ⟨PC.running, PC.running, true⟩ ∧
      bothRunning ⟨PC.running, PC.running, true⟩ :=
  ⟨Relation.ReflTransGen.tail
      (Relation.ReflTransGen.tail Relation.ReflTransGen.refl
        (CStep.enter1 PC.start false))
      (CStep.enter2 PC.running true),
   ⟨rfl, rfl⟩⟩

/-- C1 (amended): there is no lease and acquisition never blocks: a submitted
task can always enter the load/run region regardless of the other task, and in
particular can enter while the other task is already running the same role
model. -/
theorem C1_amended (p2 : PC) (g : Bool) :
    CStep ⟨PC.start, p2, g⟩ ⟨PC.running, p2, true⟩ ∧
      CStep ⟨PC.running, PC.start, g⟩ ⟨PC.running, PC.running, true⟩ :=
  ⟨CStep.enter1 p2 g, CStep.enter2 PC.running g⟩

/-- C2 (counterexample): on a fully successful video run, `unload_model()` is
invoked twice — once inside `generate_from_image` (line 243) and once more by
the `finally` of `initialize_and_generate_video` (lines 429-439) — so it is
not invoked exactly once per run. -/
theorem C2_counterexample :
    unloadCount (videoEndpointEvents ⟨true, true, true, true, true, true⟩ "t1") ≠ 1 := by
  decide

/-- C2 (amended): per orchestrated video run, `unload_model()` is invoked
exactly twice whenever the generator instance was obtained — on every exit
path, success or failure (the second invocation is an idempotent no-op) — and
zero times when `get_video_generator()` itself fails, since the `finally`
guard `if generator ...` then skips it. -/
theorem C2_amended (env : VideoEnv) (tid : String) :
    unloadCount (videoEndpointEvents env tid) = if env.ctorOk then 2 else 0 := by
  rcases env with ⟨c, m, l, i, o, r⟩
  cases c <;> cases m <;> cases l <;> cases i <;> cases o <;> cases r <;> rfl

/-- C3 (counterexample): observable progress is not monotone while
non-terminal.  On a fully successful video run the orchestrator writes
`{10, "processing"}` (`api_server.py` line 390) and the generator then writes
`{5, "正在加载模型..."}` through the progress callback (`video_generator.py`
line 171) — a decrease between two non-terminal records. -/
theorem C3_counterexample :
    monotoneWhileNonterminal
      (writesOf (videoEndpointEvents ⟨true, true, true, true, true, true⟩ "t1")) = false := by
  decide

/-- C3 (amended): every progress value written is an integer at most 100 (and
at least 0, since progress is a natural number), but the sequence of writes is
not monotone: on the successful video path it is
`0, 5, 10, 5, 10, 20, 30, 80, 100, 100` — the generator rewinds 10 to 5 when
it starts loading the model; failure paths likewise reset progress to 0. -/
theorem C3_amended (env : VideoEnv) (tid : String) :
    ((writesOf (videoEndpointEvents env tid)).all fun r => decide (r.progress ≤ 100)) = true ∧
    (writesOf (videoEndpointEvents ⟨true, true, true, true, true, true⟩ tid)).map
        Record.progress = [0, 5, 10, 5, 10, 20, 30, 80, 100, 100] := by
  rcases env with ⟨c, m, l, i, o, r⟩
  refine ⟨?_, rfl⟩
  cases c <;> cases m <;> cases l <;> cases i <;> cases o <;> cases r <;> rfl

/-- C8: `get_task_progress` returns the synthetic `{0, "unknown"}` record for
any task id absent from the registry; it is a total function of the registry
and the id, so it never raises. -/
theorem C8_poll_unknown (m : Registry) (tid : String) (h : m.lookup tid = none) :
    get_task_progress m tid = ⟨0, "unknown", none⟩ := by
  simp [get_task_progress, h]

/-- C8 witness: polling an id never submitted returns the synthetic record. -/
theorem C8_poll_unknown_witness :
    get_task_progress [("a", ⟨7, "processing", none⟩)] "b" = ⟨0, "unknown", none⟩ :=
  C8_poll_unknown [("a", ⟨7, "processing", none⟩)] "b" (by decide)

/-- C4 (counterexample): a terminal record can change again.  Registry writes
are unconditional dict assignments with no terminal guard, so after a video
run ends Failed (terminal), a resubmission that reuses the same task id — the
first thing `/video/generate` does is `task_progress[tid] = {0, "starting"}`
(line 354) — overwrites the terminal record with a non-terminal one. -/
theorem C4_counterexample :
    isTerminal (get_task_progress
        (applyEvents [] (videoEndpointEvents ⟨true, false, true, true, true, true⟩ "t1"))
        "t1") = true ∧
    get_task_progress
        (applyEvents [] (videoEndpointEvents ⟨true, false, true, true, true, true⟩ "t1" ++
          [Ev.write "t1" ⟨0, "starting", none⟩])) "t1" = ⟨0, "starting", none⟩ := by
  decide

/-- C4 (amended): within a single orchestrated video run the registry does
behave as claimed — exactly one terminal record is written and it is the last
write, so no in-run write follows the terminal state; but the write operation
itself is an unconditional overwrite with no terminal guard, so any later
write under the same id (a resubmission, or a stray late callback) replaces
the terminal record rather than being a no-op. -/
theorem C4_amended (env : VideoEnv) (tid : String) :
    ((writesOf (videoEndpointEvents env tid)).filter isTerminal).length = 1 ∧
    (writesOf (videoEndpointEvents env tid)).getLast?.map isTerminal = some true ∧
    Registry.set [(tid, ⟨0, "failed", none⟩)] tid ⟨0, "starting", none⟩
      = [(tid, ⟨0, "starting", none⟩)] := by
  rcases env with ⟨c, m, l, i, o, r⟩
  refine ⟨?_, ?_, by simp [Registry.set]⟩ <;>
    cases c <;> cases m <;> cases l <;> cases i <;> cases o <;> cases r <;> rfl

/-- C5 (counterexample): the delay mapping and the expiry guard are both
wrong.  The synchronous `/image/generate` endpoint schedules cleanup with
delay 60 on its Completed path (`api_server.py` line 327), not 300; and
`cleanup_task_progress` deletes any still-present record without checking
that it is still terminal (lines 443-445), here deleting a record that is
back at `{50, "processing"}`. -/
theorem C5_counterexample :
    get_task_progress
        (applyEvents [] (imageEndpointEvents ⟨true, true, true, true⟩ "t1" "p" 1)) "t1"
      = ⟨100, "completed", none⟩ ∧
    schedulesOf (imageEndpointEvents ⟨true, true, true, true⟩ "t1" "p" 1) = [("t1", 60)] ∧
    cleanup_task_progress [("t1", ⟨50, "processing", none⟩)] "t1" = [] := by
  decide

/-- C5 (amended): the video orchestration schedules deletion with 300 seconds
on a Completed run and 60 seconds otherwise, while the image endpoint always
schedules 60 seconds (also on Completed); when the delay elapses the record is
deleted if still present, with no check that it is still terminal. -/
theorem C5_amended (venv : VideoEnv) (ienv : ImgEnv) (tid prompt : String) (n : Nat) :
    schedulesOf (videoEndpointEvents venv tid)
      = [(tid, if venv.success then 300 else 60)] ∧
    schedulesOf (imageEndpointEvents ienv tid prompt n) = [(tid, 60)] := by
  constructor
  · rcases venv with ⟨c, m, l, i, o, r⟩
    cases c <;> cases m <;> cases l <;> cases i <;> cases o <;> cases r <;> rfl
  · rcases ienv with ⟨c, i, o, r⟩
    cases c <;> cases i <;> cases o <;> cases r <;>
      simp [imageEndpointEvents, ImageGenerator.generate, imgCb, schedulesOf_append,
        schedulesOf_nil, schedulesOf_write, schedulesOf_unload, schedulesOf_modelLoad,
        schedulesOf_ctorOptimizer, schedulesOf_optimizeCall, schedulesOf_schedule,
        schedulesOf_modelRun, schedulesOf_synthesize, schedulesOf_saveImage,
        schedulesOf_imageLoop]

/-- C6 (counterexample): the stream is not finite for every task id.  For an
id that is never present in the registry (never submitted, or already cleaned
up and never resubmitted) every sample is the synthetic non-terminal
`{0, "unknown"}` record, so the loop in `stream_task_progress` never hits its
`break`: no number of iterations completes the stream. -/
theorem C6_counterexample :
    ¬ ∃ k, streamDone (fun _ => get_task_progress [] "t1") k = true := by
  rintro ⟨k, hk⟩
  rw [streamDone_of_never_terminal (get_task_progress [] "t1") (by decide) k] at hk
  exact Bool.false_ne_true hk

/-- C6 (amended): when some sample is terminal — the first one at tick `N` —
the stream ends at iteration `N + 1`: it has emitted every sample up to and
including tick `N`, emits nothing afterwards, and the terminal record at tick
`N` is the one and only terminal record emitted.  For a task id whose samples
are never terminal the stream never ends. -/
theorem C6_amended (f : Nat → Record) (N : Nat)
    (hpre : ∀ n, n < N → isTerminal (f n) = false)
    (hterm : isTerminal (f N) = true) :
    streamDone f (N + 1) = true ∧
    streamEmit f (N + 1) = (List.range (N + 1)).map f ∧
    streamEmit f (N + 2) = streamEmit f (N + 1) ∧
    (streamEmit f (N + 1)).filter isTerminal = [f N] := by
  induction N generalizing f with
  | zero =>
    refine ⟨?_, ?_, ?_, ?_⟩ <;>
      simp [streamDone, streamEmit, hterm, List.range_succ, List.range_zero]
  | succ N ih =>
    have h0 : isTerminal (f 0) = false := hpre 0 (Nat.succ_pos N)
    obtain ⟨d1, e1, e2, fl⟩ :=
      ih (fun n => f (n + 1)) (fun n hn => hpre (n + 1) (by omega)) hterm
    have hse : ∀ k, streamEmit f (k + 1) = f 0 :: streamEmit (fun n => f (n + 1)) k := by
      intro k
      simp [streamEmit, h0]
    have hsd : ∀ k, streamDone f (k + 1) = streamDone (fun n => f (n + 1)) k := by
      intro k
      simp [streamDone, h0]
    refine ⟨?_, ?_, ?_, ?_⟩
    · show streamDone f (N + 1 + 1) = true
      rw [hsd (N + 1)]
      exact d1
    · show streamEmit f (N + 1 + 1) = _
      rw [hse (N + 1), e1]
      conv_rhs => rw [List.range_succ_eq_map]
      simp [List.map_map, Function.comp_def]
    · show streamEmit f (N + 1 + 2) = streamEmit f (N + 1 + 1)
      have hadd : N + 1 + 2 = (N + 2) + 1 := rfl
      rw [hadd, hse (N + 2), hse (N + 1), e2]
    · show (streamEmit f (N + 1 + 1)).filter isTerminal = [f (N + 1)]
      rw [hse (N + 1), List.filter_cons]
      simp [h0, fl]

/-- C6 witness: a task that polls `{10, "processing"}` once and then
`{100, "completed"}`: the stream ends after two iterations, having emitted
both records, the terminal one last and only once. -/
theorem C6_amended_witness :
    streamDone streamSampleHistory 2 = true ∧
    streamEmit streamSampleHistory 2 = (List.range 2).map streamSampleHistory ∧
    streamEmit streamSampleHistory 3 = streamEmit streamSampleHistory 2 ∧
    (streamEmit streamSampleHistory 2).filter isTerminal = [streamSampleHistory 1] :=
  C6_amended streamSampleHistory 1
    (by
      intro n hn
      have hn0 : n = 0 := Nat.lt_one_iff.mp hn
      rw [hn0]
      decide)
    (by decide)

/-- C7: model/service initialization.  For both `_initialize_model`
implementations (`prompt_optimizer.py` lines 50-87, `image_generator.py`
lines 67-103) and for `ensure_service_loaded` (`main.py` lines 56-94):
* idempotence — an already-loaded model (or already-constructed service) is a
  no-op returning the state unchanged;
* a role disabled in configuration leaves `model_path = None`, so
  initialization fails with a model-unavailable error; `ensure_service_loaded`
  fails directly on a disabled role;
* a configured path that does not exist likewise fails;
* otherwise (the library is importable and the external loader succeeds) the
  model is loaded. -/
theorem C7_ensure_loaded
    (fs : String → Bool) (loaderOk : Bool)
    (cfgOff : ModelCfg) (hOff : cfgOff.enabled = false)
    (poLoaded : POState) (hpoL : poLoaded.is_model_loaded = true)
    (poBad : POState) (hpoBadPath : pathUsable fs poBad.model_path = false)
    (hpoBadNot : poBad.is_model_loaded = false)
    (poFresh : POState) (hpoFreshNot : poFresh.is_model_loaded = false)
    (hpoFreshPath : pathUsable fs poFresh.model_path = true)
    (igLoaded : IGState) (higL : igLoaded.is_model_loaded = true)
    (igBad : IGState) (higBadPath : pathUsable fs igBad.model_path = false)
    (higBadNot : igBad.is_model_loaded = false) (higBadType : igBad.model_type = "flux_krea")
    (igFresh : IGState) (higFreshNot : igFresh.is_model_loaded = false)
    (higFreshPath : pathUsable fs igFresh.model_path = true)
    (higFreshType : igFresh.model_type = "flux_krea")
    (en : String → Bool) (svc : String → Option Unit) (name : String)
    (hc : svc name = some ())
    (en2 : String → Bool) (svc2 : String → Option Unit)
    (h2a : svc2 "prompt_optimizer" = none) (h2b : en2 "qwen" = false) :
    PromptOptimizer.initializeModel true fs loaderOk poLoaded = .ok poLoaded ∧
    ImageGenerator.initializeModel true true fs loaderOk igLoaded = .ok igLoaded ∧
    ensure_service_loaded en svc name = .ok svc ∧
    (PromptOptimizer.new cfgOff).model_path = none ∧
    PromptOptimizer.initializeModel true fs loaderOk (PromptOptimizer.new cfgOff)
      = .error "Qwen model path not found. Please check configuration." ∧
    (ImageGenerator.new cfgOff).model_path = none ∧
    ImageGenerator.initializeModel true true fs loaderOk (ImageGenerator.new cfgOff)
      = .error "FLUX model path not found" ∧
    PromptOptimizer.initializeModel true fs loaderOk poBad
      = .error "Qwen model path not found. Please check configuration." ∧
    ImageGenerator.initializeModel true true fs loaderOk igBad
      = .error "FLUX model path not found" ∧
    PromptOptimizer.initializeModel true fs true poFresh
      = .ok { poFresh with is_model_loaded := true, hasModel := true } ∧
    ImageGenerator.initializeModel true true fs true igFresh
      = .ok { igFresh with is_model_loaded := true } ∧
    ensure_service_loaded en2 svc2 "prompt_optimizer"
      = .error "服务加载失败: Qwen模型未启用" := by
  refine ⟨?_, ?_, ?_, ?_, ?_, ?_, ?_, ?_, ?_, ?_, ?_, ?_⟩
  · simp [PromptOptimizer.initializeModel, hpoL]
  · simp [ImageGenerator.initializeModel, higL]
  · simp [ensure_service_loaded, hc]
  · simp [PromptOptimizer.new, loadConfigPath, hOff]
  · simp [PromptOptimizer.initializeModel, PromptOptimizer.new, loadConfigPath, hOff,
      pathUsable]
  · simp [ImageGenerator.new, loadConfigPath, hOff]
  · simp [ImageGenerator.initializeModel, ImageGenerator.new, loadConfigPath, hOff,
      pathUsable]
  · simp [PromptOptimizer.initializeModel, hpoBadNot, hpoBadPath]
  · simp [ImageGenerator.initializeModel, higBadNot, higBadPath, higBadType]
  · simp [PromptOptimizer.initializeModel, hpoFreshNot, hpoFreshPath]
  · simp [ImageGenerator.initializeModel, higFreshNot, higFreshPath, higFreshType]
  · simp [ensure_service_loaded, h2a, h2b]

/-- C7 witness: a concrete filesystem with exactly one existing path `/m`, a
disabled config entry, loaded/fresh/bad-path states of both modules, a cached
service and a disabled service role. -/
theorem C7_ensure_loaded_witness :
    PromptOptimizer.initializeModel true (fun p => p == "/m") true ⟨some "/m", true, true⟩
      = .ok ⟨some "/m", true, true⟩ ∧
    ImageGenerator.initializeModel true true (fun p => p == "/m") true
        ⟨some "/m", true, "flux_krea"⟩ = .ok ⟨some "/m", true, "flux_krea"⟩ ∧
    ensure_service_loaded (fun _ => true) (fun _ => some ()) "prompt_optimizer"
      = .ok (fun _ => some ()) ∧
    (PromptOptimizer.new ⟨false, some "/m"⟩).model_path = none ∧
    PromptOptimizer.initializeModel true (fun p => p == "/m") true
        (PromptOptimizer.new ⟨false, some "/m"⟩)
      = .error "Qwen model path not found. Please check configuration." ∧
    (ImageGenerator.new ⟨false, some "/m"⟩).model_path = none ∧
    ImageGenerator.initializeModel true true (fun p => p == "/m") true
        (ImageGenerator.new ⟨false, some "/m"⟩)
      = .error "FLUX model path not found" ∧
    PromptOptimizer.initializeModel true (fun p => p == "/m") true ⟨some "/x", false, false⟩
      = .error "Qwen model path not found. Please check configuration." ∧
    ImageGenerator.initializeModel true true (fun p => p == "/m") true
        ⟨some "/x", false, "flux_krea"⟩ = .error "FLUX model path not found" ∧
    PromptOptimizer.initializeModel true (fun p => p == "/m") true ⟨some "/m", false, false⟩
      = .ok ⟨some "/m", true, true⟩ ∧
    ImageGenerator.initializeModel true true (fun p => p == "/m") true
        ⟨some "/m", false, "flux_krea"⟩ = .ok ⟨some "/m", true, "flux_krea"⟩ ∧
    ensure_service_loaded (fun _ => false) (fun _ => none) "prompt_optimizer"
      = .error "服务加载失败: Qwen模型未启用" :=
  C7_ensure_loaded (fun p => p == "/m") true
    ⟨false, some "/m"⟩ rfl
    ⟨some "/m", true, true⟩ rfl
    ⟨some "/x", false, false⟩ (by decide) rfl
    ⟨some "/m", false, false⟩ rfl (by decide)
    ⟨some "/m", true, "flux_krea"⟩ rfl
    ⟨some "/x", false, "flux_krea"⟩ (by decide) rfl rfl
    ⟨some "/m", false, "flux_krea"⟩ rfl (by decide) rfl
    (fun _ => true) (fun _ => some ()) "prompt_optimizer" rfl
    (fun _ => false) (fun _ => none) rfl rfl

/-- C9: in every `ImageGenerator.generate` run, no image is synthesized
before the awaited `optimizer.optimize` call; whenever the model initialized,
a fresh `PromptOptimizer` was constructed and `optimize` was awaited on the
user prompt; and when optimization raises, the call fails, invokes
`unload_model()` exactly once, and synthesizes and saves no image. -/
theorem C9_optimizer_before_synthesis
    (env : ImgEnv) (hasCb : Bool) (tid prompt : String) (n : Nat)
    (env3 : ImgEnv) (hasCb3 : Bool) (tid3 prompt3 : String) (n3 : Nat)
    (h3 : env3.initOk = true)
    (env2 : ImgEnv) (hasCb2 : Bool) (tid2 prompt2 : String) (n2 : Nat)
    (h2a : env2.initOk = true) (h2b : env2.optimizeOk = false) :
    (((ImageGenerator.generate env hasCb tid prompt n).1.takeWhile
        fun e => !(isOptCall e)).all fun e => !(isSynth e)) = true ∧
    Ev.ctorOptimizer ∈ (ImageGenerator.generate env3 hasCb3 tid3 prompt3 n3).1 ∧
    Ev.optimizeCall prompt3 ∈ (ImageGenerator.generate env3 hasCb3 tid3 prompt3 n3).1 ∧
    (ImageGenerator.generate env2 hasCb2 tid2 prompt2 n2).2 = false ∧
    ((ImageGenerator.generate env2 hasCb2 tid2 prompt2 n2).1.all
        fun e => !(isSynth e) && !(isSave e)) = true ∧
    ((ImageGenerator.generate env2 hasCb2 tid2 prompt2 n2).1.filter isUnload).length = 1 := by
  rcases env with ⟨c, i, o, r⟩
  rcases env3 with ⟨c3, i3, o3, r3⟩
  rcases env2 with ⟨c2, i2, o2, r2⟩
  simp only at h3 h2a h2b
  subst h3 h2a h2b
  refine ⟨?_, ?_, ?_, ?_, ?_, ?_⟩
  · cases i <;> cases o <;> cases r <;> cases hasCb <;> rfl
  · cases o3 <;> cases r3 <;> cases hasCb3 <;>
      simp [ImageGenerator.generate, imgCb]
  · cases o3 <;> cases r3 <;> cases hasCb3 <;>
      simp [ImageGenerator.generate, imgCb]
  · cases r2 <;> cases hasCb2 <;> rfl
  · cases r2 <;> cases hasCb2 <;> rfl
  · cases r2 <;> cases hasCb2 <;> rfl

/-- C9 witness: a concrete two-image run (ordering) together with a concrete
run whose optimization fails (failure behavior). -/
theorem C9_optimizer_before_synthesis_witness :
    (((ImageGenerator.generate ⟨true, true, true, true⟩ true "t1" "p1" 2).1.takeWhile
        fun e => !(isOptCall e)).all fun e => !(isSynth e)) = true ∧
    Ev.ctorOptimizer ∈ (ImageGenerator.generate ⟨true, true, true, true⟩ true "t1" "p1" 2).1 ∧
    Ev.optimizeCall "p1" ∈ (ImageGenerator.generate ⟨true, true, true, true⟩ true "t1" "p1" 2).1 ∧
    (ImageGenerator.generate ⟨true, true, false, true⟩ true "t2" "p2" 2).2 = false ∧
    ((ImageGenerator.generate ⟨true, true, false, true⟩ true "t2" "p2" 2).1.all
        fun e => !(isSynth e) && !(isSave e)) = true ∧
    ((ImageGenerator.generate ⟨true, true, false, true⟩ true "t2" "p2" 2).1.filter
        isUnload).length = 1 :=
  C9_optimizer_before_synthesis ⟨true, true, true, true⟩ true "t1" "p1" 2
    ⟨true, true, true, true⟩ true "t1" "p1" 2 rfl
    ⟨true, true, false, true⟩ true "t2" "p2" 2 rfl rfl

/-- C10: `validate_parameters` accepts exactly the parameter triples with both
dimensions in 256..2048, between 1 and 10 images, and an aspect ratio
`max / min` at most 4. -/
theorem C10_validate_parameters (w h n : Int) :
    validate_parameters w h n = true ↔
      (256 ≤ w ∧ w ≤ 2048 ∧ 256 ≤ h ∧ h ≤ 2048 ∧ 1 ≤ n ∧ n ≤ 10 ∧
        ((max w h : ℚ) / (min w h : ℚ)) ≤ 4) := by
  unfold validate_parameters
  split_ifs with h1 h2 h3
  · simp only [Bool.false_eq_true, false_iff]
    simp only [Bool.or_eq_true, decide_eq_true_eq] at h1
    rintro ⟨a1, a2, a3, a4, -⟩
    omega
  · simp only [Bool.false_eq_true, false_iff]
    simp only [Bool.or_eq_true, decide_eq_true_eq] at h2
    rintro ⟨-, -, -, -, a5, a6, -⟩
    omega
  · simp only [Bool.false_eq_true, false_iff]
    rintro ⟨-, -, -, -, -, -, a7⟩
    exact absurd a7 (not_le.mpr h3)
  · simp only [Bool.or_eq_true, decide_eq_true_eq] at h1 h2
    simp only [true_iff]
    exact ⟨by omega, by omega, by omega, by omega, by omega, by omega, not_lt.mp h3⟩

end EasyVideo
